import Mathlib

/-!
# Verification of the takahē inbox message pipeline

Shallow embedding of `users/models/inbox_message.py`: the inbox state
graph, the derived payload views, the LD-signature pre-pass and the
activity dispatch of `InboxMessageStates.handle_received`, plus
`InboxMessage.create_internal`, together with a spec-level model of the
JSON-LD signature scheme (`core/signatures.py` is outside the sources).

JSON payloads are modelled by an inductive `JsonVal`; Python dictionaries
become association lists (first binding wins, as `dict` keys are unique);
Python exceptions become an `Except PyExc` result; the external domain
handlers (`Follow`, `Block`, `Post`, `PostInteraction`, `Identity`,
`Report`, `TimelineEvent`, `IdentityService`) and the external
LD-signature verification machinery are abstracted into an environment
record `Env`.
-/

namespace Takahe

/-- A parsed JSON value (the payload type of an inbox message). -/
inductive JsonVal where
  | str : String → JsonVal
  | num : Int → JsonVal
  | bool : Bool → JsonVal
  | null : JsonVal
  | arr : List JsonVal → JsonVal
  | obj : List (String × JsonVal) → JsonVal

/-- A JSON object / Python dict: association list of unique string keys. -/
abbrev Doc := List (String × JsonVal)

/-- `d[k]` lookup: first binding for `k`, if any. -/
def lookupField (d : Doc) (k : String) : Option JsonVal :=
  match d with
  | [] => none
  | (k₀, v) :: rest => if k₀ = k then some v else lookupField rest k

/-- `d.pop(k)`: remove the binding for `k` (no-op when absent). -/
def eraseField (d : Doc) (k : String) : Doc :=
  match d with
  | [] => []
  | (k₀, v) :: rest => if k₀ = k then eraseField rest k else (k₀, v) :: eraseField rest k

/-- `d[k] = v`: replace the binding for `k`, appending when absent. -/
def setField (d : Doc) (k : String) (v : JsonVal) : Doc :=
  match d with
  | [] => [(k, v)]
  | (k₀, v₀) :: rest => if k₀ = k then (k, v) :: rest else (k₀, v₀) :: setField rest k v

/-- Membership test of a string in a JSON array, as Python's
`"s" in list` (equality against each element; only string elements can
compare equal to a string). -/
def listHasString (l : List JsonVal) (s : String) : Bool :=
  match l with
  | [] => false
  | .str s₀ :: rest => s₀ = s || listHasString rest s
  | _ :: rest => listHasString rest s

/-- Helper for `strContains`: does `needle` occur as a contiguous run in
the character list? -/
def charsContain (needle : List Char) : List Char → Bool
  | [] => needle.isEmpty
  | c :: rest => needle.isPrefixOf (c :: rest) || charsContain needle rest

/-- Substring test, as Python's `"s" in str`. -/
def strContains (haystack needle : String) : Bool :=
  charsContain needle.toList haystack.toList

/-- Python's `str.lower()` (over the ASCII range the dispatch keys use),
written over the character list so it reduces. -/
def toLowerStr (s : String) : String :=
  String.mk (s.data.map Char.toLower)

/-! ## The inbox state graph (`InboxMessageStates`) -/

/-- The three states of `InboxMessageStates`. -/
inductive StateSym where
  | received
  | processed
  | errored
deriving DecidableEq, Repr

/-- The per-state policy data attached to a `State(...)` declaration. -/
structure StateDef where
  tryInterval : Option Nat
  deleteAfter : Option Nat
  externallyProgressed : Bool
deriving DecidableEq, Repr

/-- `received = State(try_interval=300, delete_after=86400 * 3)` etc. -/
def stateDef : StateSym → StateDef
  | .received => ⟨some 300, some (86400 * 3), false⟩
  | .processed => ⟨none, some 86400, true⟩
  | .errored => ⟨none, some 86400, true⟩

/-- The declared edges: `received.transitions_to(processed)` and
`received.transitions_to(errored)`. -/
def inboxTransitions : List (StateSym × StateSym) :=
  [(.received, .processed), (.received, .errored)]

/-! ## Exceptions, handlers, environment -/

/-- The Python exceptions relevant to the pipeline.  `activityPubError`
stands for the whole federation-error family (`ActivityPubError` and its
subclasses), `jsonLdError` for `pyld`'s `JsonLdError`;
`verificationFormatError` is the structural sub-kind of
`verificationError`. -/
inductive PyExc where
  | activityPubError
  | jsonLdError
  | verificationError
  | verificationFormatError
  | keyError
  | attributeError
  | typeError
  | otherError
deriving DecidableEq, Repr

/-- The domain-handler capabilities `handle_received` can invoke. -/
inductive Handler where
  | followRequest
  | followAccept
  | followReject
  | followUndo
  | blockHandle
  | blockUndo
  | interactionHandle
  | interactionUndo
  | interactionAdd
  | interactionRemove
  | postCreate
  | postUpdate
  | postDelete
  | postFetchInternal
  | identityUpdate
  | identityDelete
  | reportHandle
  | timelineClearTimeline
  | identityAddFollow
  | identitySyncPins
deriving DecidableEq, Repr

/-- Outcome of the external LD-verification machinery reached from
`verify_ld_signature` when a `signature` field is present: the creator
lookup / actor fetch / `LDSignature.verify_signature` chain either
succeeds, raises `VerificationFormatError`, raises a (plain)
`VerificationError` (covering both a cryptographically invalid signature
and the could-not-fetch-actor raise), or raises some other exception
(e.g. a `KeyError` while extracting `document["signature"]["creator"]`). -/
inductive LdOutcome where
  | valid
  | formatError
  | cryptoError
  | raised : PyExc → LdOutcome
deriving DecidableEq, Repr

/-- The external world as seen by `handle_received`:
the result of each domain-handler capability, the
`Identity.objects.filter(actor_uri=...).exists()` and
`Post.objects.filter(object_uri=...).exists()` queries used by the
`delete` branch, and the outcome of external LD verification. -/
structure Env where
  handlerResult : Handler → Except PyExc Unit
  identityExists : JsonVal → Bool
  postExists : JsonVal → Bool
  ldOutcome : LdOutcome

/-- An `InboxMessage` row (the fields the core reads or writes). -/
structure Instance where
  state : StateSym
  stateChangedAt : Nat
  message : Doc

/-! ## Derived views on the payload -/

/-- `message_type`: `self.message["type"].lower()`.  A missing key raises
`KeyError`; `.lower()` on a non-string raises `AttributeError`. -/
def message_type (msg : Doc) : Except PyExc String :=
  match lookupField msg "type" with
  | none => .error .keyError
  | some (.str s) => .ok (toLowerStr s)
  | some _ => .error .attributeError

/-- `message_object_type`: `self.message["object"]["type"].lower()` when
the object is a dict, else `None`.  Accessing a missing `object` or
`type` key raises `KeyError`. -/
def message_object_type (msg : Doc) : Except PyExc (Option String) :=
  match lookupField msg "object" with
  | none => .error .keyError
  | some (.obj o) =>
    match lookupField o "type" with
    | none => .error .keyError
    | some (.str s) => .ok (some (toLowerStr s))
    | some _ => .error .attributeError
  | some _ => .ok none

/-- `message_actor`: `self.message.get("actor")`. -/
def message_actor (msg : Doc) : Option JsonVal :=
  lookupField msg "actor"

/-- `message_object_has_content`:
`object = self.message.get("object", {})`, then
`"content" in object or "contentMap" in object` (key membership for a
dict, substring for a string, element membership for a list, `TypeError`
otherwise). -/
def message_object_has_content (msg : Doc) : Except PyExc Bool :=
  match lookupField msg "object" with
  | none => .ok false
  | some (.obj o) =>
    .ok ((lookupField o "content").isSome || (lookupField o "contentMap").isSome)
  | some (.str s) => .ok (strContains s "content" || strContains s "contentMap")
  | some (.arr l) => .ok (listHasString l "content" || listHasString l "contentMap")
  | some _ => .error .typeError

/-- Modelled from the spec: `Post.Types.names` (the post model lives in
`activities/models/post.py`, which is not among the sources) — the set of
"known post type names" an embedded object may carry for `create` /
`update` dispatch. -/
def postTypeNames : List String :=
  ["article", "audio", "event", "image", "note", "page", "question", "video"]

/-! ## `verify_ld_signature` -/

/-- `InboxMessage.verify_ld_signature`.  Returns the (possibly mutated)
document together with the raised exception, if any.  When no
`signature` field is present the method returns immediately.  Otherwise
the creator-resolution / `LDSignature.verify_signature` chain runs with
outcome `env.ldOutcome`; the `except VerificationError` clause (which
also catches the `VerificationFormatError` sub-kind) pops the
`signature` field and re-raises, while any other exception propagates
with the document untouched.  On success `logger.debug` eagerly
evaluates `document["type"]`, raising `KeyError` when the key is
missing. -/
def verify_ld_signature (env : Env) (doc : Doc) : Doc × Except PyExc Unit :=
  match lookupField doc "signature" with
  | none => (doc, .ok ())
  | some _ =>
    match env.ldOutcome with
    | .raised e => (doc, .error e)
    | .formatError => (eraseField doc "signature", .error .verificationFormatError)
    | .cryptoError => (eraseField doc "signature", .error .verificationError)
    | .valid =>
      match lookupField doc "type" with
      | none => (doc, .error .keyError)
      | some _ => (doc, .ok ())

/-! ## The dispatch of `handle_received` -/

/-- Invoke one domain-handler capability and, when it returns normally,
fall through to the given state.  The trace records that the handler was
invoked. -/
def run1 (env : Env) (h : Handler) (st : StateSym) :
    List Handler × Except PyExc StateSym :=
  match env.handlerResult h with
  | .ok () => ([h], .ok st)
  | .error e => ([h], .error e)

/-- The `match instance.message_type` body of `handle_received` (the
part inside the `try` of lines 44–178): returns the invoked-handler
trace and either the fall-through / explicit state or the exception
raised.  Python's `match` over string literals is a sequential equality
test, rendered here as an `if`-chain; a trailing `case unknown` capture
becomes the final `else`. -/
def dispatch (env : Env) (doc : Doc) : List Handler × Except PyExc StateSym :=
  match message_type doc with
  | .error e => ([], .error e)
  | .ok mt =>
    if mt = "follow" then run1 env .followRequest .processed
    else if mt = "block" then run1 env .blockHandle .processed
    else if mt = "announce" then
      match message_object_type doc with
      | .error e => ([], .error e)
      | .ok mot =>
        -- Ignore Lemmy-specific likes and dislikes
        if mot = some "like" ∨ mot = some "dislike" then ([], .ok .processed)
        else run1 env .interactionHandle .processed
    else if mt = "like" then run1 env .interactionHandle .processed
    else if mt = "create" then
      match message_object_type doc with
      | .error e => ([], .error e)
      | .ok mot =>
        if mot = some "note" then
          match message_object_has_content doc with
          | .error e => ([], .error e)
          | .ok true => run1 env .postCreate .processed
          | .ok false =>
            -- Notes without content are Interaction candidates
            run1 env .interactionHandle .processed
        else if mot = some "question" then run1 env .postCreate .processed
        else
          match mot with
          | some u => if u ∈ postTypeNames then run1 env .postCreate .processed
                      else ([], .ok .processed)
          | none => ([], .ok .processed)
    else if mt = "update" then
      match message_object_type doc with
      | .error e => ([], .error e)
      | .ok mot =>
        if mot = some "note" then run1 env .postUpdate .processed
        else if mot = some "person" then run1 env .identityUpdate .processed
        else if mot = some "service" then run1 env .identityUpdate .processed
        else if mot = some "group" then run1 env .identityUpdate .processed
        else if mot = some "organization" then run1 env .identityUpdate .processed
        else if mot = some "application" then run1 env .identityUpdate .processed
        else if mot = some "question" then run1 env .postUpdate .processed
        else
          match mot with
          | some u => if u ∈ postTypeNames then run1 env .postUpdate .processed
                      else ([], .ok .processed)
          | none => ([], .ok .processed)
    else if mt = "accept" then
      match message_object_type doc with
      | .error e => ([], .error e)
      | .ok mot =>
        if mot = some "follow" then run1 env .followAccept .processed
        else if mot = none then
          -- A string object: these will only be for Follows
          run1 env .followAccept .processed
        else ([], .ok .errored)
    else if mt = "reject" then
      match message_object_type doc with
      | .error e => ([], .error e)
      | .ok mot =>
        if mot = some "follow" then run1 env .followReject .processed
        else if mot = none then
          -- A string object: these will only be for Follows
          run1 env .followReject .processed
        else ([], .ok .errored)
    else if mt = "undo" then
      match message_object_type doc with
      | .error e => ([], .error e)
      | .ok mot =>
        if mot = some "follow" then run1 env .followUndo .processed
        else if mot = some "block" then run1 env .blockUndo .processed
        else if mot = some "like" then run1 env .interactionUndo .processed
        else if mot = some "announce" then run1 env .interactionUndo .processed
        else if mot = some "http://litepub.social/ns#emojireact" then
          -- Ignoring emoji reactions
          ([], .ok .processed)
        else ([], .ok .errored)
    else if mt = "delete" then
      -- Direct `instance.message["object"]` access
      match lookupField doc "object" with
      | none => ([], .error .keyError)
      | some (.obj _) =>
        match message_object_type doc with
        | .error e => ([], .error e)
        | .ok mot =>
          if mot = some "tombstone" then run1 env .postDelete .processed
          else if mot = some "note" then run1 env .postDelete .processed
          else ([], .ok .errored)
      | some v =>
        -- Not a dict: try as an Identity, then as a Post, else it is
        -- presumably already deleted
        if env.identityExists v then run1 env .identityDelete .processed
        else if env.postExists v then run1 env .postDelete .processed
        else ([], .ok .processed)
    else if mt = "add" then run1 env .interactionAdd .processed
    else if mt = "remove" then run1 env .interactionRemove .processed
    else if mt = "move" then
      -- Ignoring moves
      ([], .ok .processed)
    else if mt = "http://litepub.social/ns#emojireact" then
      -- Ignoring emoji reactions
      ([], .ok .processed)
    else if mt = "flag" then run1 env .reportHandle .processed
    else if mt = "__internal__" then
      match message_object_type doc with
      | .error e => ([], .error e)
      | .ok mot =>
        if mot = some "fetchpost" then run1 env .postFetchInternal .processed
        else if mot = some "cleartimeline" then run1 env .timelineClearTimeline .processed
        else if mot = some "addfollow" then run1 env .identityAddFollow .processed
        else if mot = some "syncpins" then run1 env .identitySyncPins .processed
        else ([], .ok .errored)
    else ([], .ok .errored)

/-- `InboxMessageStates.handle_received`: the LD-signature pre-pass,
then the dispatch wrapped in
`except (ActivityPubError, JsonLdError): return cls.errored`.
Returns the (possibly mutated) row, the invoked-handler trace, and
either the returned next-state symbol or the propagated exception. -/
def handle_received (env : Env) (inst : Instance) :
    Instance × (List Handler × Except PyExc StateSym) :=
  let pre := verify_ld_signature env inst.message
  let inst2 : Instance := { inst with message := pre.1 }
  match pre.2 with
  | .error .verificationFormatError =>
    -- logged, then `return cls.errored`
    (inst2, ([], .ok .errored))
  | .error .verificationError =>
    -- `except VerificationError:` — but the `logger.info` call eagerly
    -- evaluates `instance.message_actor()`: `message_actor` is a
    -- `@property`, so this calls the looked-up JSON value, and no JSON
    -- value is callable, raising `TypeError` out of `handle_received`
    (inst2, ([], .error .typeError))
  | .error e => (inst2, ([], .error e))
  | .ok () =>
    let d := dispatch env inst2.message
    match d.2 with
    | .error .activityPubError => (inst2, (d.1, .ok .errored))
    | .error .jsonLdError => (inst2, (d.1, .ok .errored))
    | r => (inst2, (d.1, r))

/-! ## `InboxMessage.create_internal` -/

/-- The message table, as far as `objects.create` is concerned. -/
structure Store where
  rows : List (Nat × Doc)
  nextId : Nat

/-- `cls.objects.create(message=...)`: insert a fresh row and hand back
its id. -/
def objects_create (st : Store) (msg : Doc) : Store × Nat :=
  (⟨st.rows ++ [(st.nextId, msg)], st.nextId + 1⟩, st.nextId)

/-- `InboxMessage.create_internal(payload)`: creates an internal action
message.  The Python method body is a bare `cls.objects.create(...)`
with no `return` statement, so the caller receives `None`. -/
def create_internal (st : Store) (payload : JsonVal) : Store × Option Nat :=
  let r := objects_create st [("type", .str "__internal__"), ("object", payload)]
  (r.1, none)

/-! ## The JSON-LD signature scheme

Modelled from the spec: `LDSignature.create_signature` /
`LDSignature.verify_signature` live in `core/signatures.py`, which is
not among the sources (only its tests are).  Per §4.1 of the spec, the
verifier canonicalizes the document minus its signature together with
the signature options (the block minus `signatureValue`/`type`/`id`),
hashes both and checks the RSA signature over the concatenation.  RSA
plus the deterministic, injective URDNA2015 canonicalization-and-hash
chain is modelled symbolically: a signature value records exactly the
key, options and document body it was produced over, and verification
checks that record against what the verifier recomputes.  A key pair is
one atom serving as both halves. -/

namespace LDSignature

/-- Modelled from the spec: an RSA key pair, as a symbolic atom. -/
structure KeyPair where
  keyId : Nat
deriving DecidableEq, Repr

/-- The top-level fields of an LD document, signature excluded. -/
abbrev LdBody := List (String × String)

/-- Modelled from the spec: the canonicalized signature options —
the signature block minus `signatureValue`/`type`/`id`, i.e. the
`@context`, `creator` and `created` fields. -/
structure SigOptions where
  context : String
  creator : String
  created : String
deriving DecidableEq, Repr

/-- Modelled from the spec: a symbolic RSA signature over the
options-hash‖document-hash concatenation; it records what was signed
and by which key. -/
structure RsaSig where
  signedBy : KeyPair
  opts : SigOptions
  body : LdBody
deriving DecidableEq, Repr

/-- Modelled from the spec: RSA signing with a private key. -/
def rsa_sign (k : KeyPair) (opts : SigOptions) (body : LdBody) : RsaSig :=
  ⟨k, opts, body⟩

/-- Modelled from the spec: RSA verification with the public key. -/
def rsa_verify (pub : KeyPair) (opts : SigOptions) (body : LdBody) (s : RsaSig) : Bool :=
  decide (s = ⟨pub, opts, body⟩)

/-- Modelled from the spec: the `@context` of the identity vocabulary
carried by a signature block. -/
def idContext : String := "https://w3id.org/identity/v1"

/-- Modelled from the spec: the signature block produced by
`LDSignature.create_signature` — `creator`, `created` and
`signatureValue` (its constant `type: "RsaSignature2017"` is implicit
in the block type). -/
structure SigBlock where
  creator : String
  created : String
  signatureValue : RsaSig
deriving DecidableEq, Repr

/-- Modelled from the spec: `LDSignature.create_signature(document,
private_key, key_id)` at timestamp `created`. -/
def create_signature (body : LdBody) (priv : KeyPair) (keyId created : String) :
    SigBlock :=
  ⟨keyId, created, rsa_sign priv ⟨idContext, keyId, created⟩ body⟩

/-- An LD document: body fields plus the optional embedded signature. -/
structure LdDocument where
  body : LdBody
  signature : Option SigBlock
deriving DecidableEq, Repr

/-- Modelled from the spec: `LDSignature.verify_signature(document,
public_key)` — extract the signature (structurally absent →
`VerificationFormatError`), rebuild the options, and RSA-verify over
the canonicalized pair; a mismatch raises `VerificationError`. -/
def verify_signature (doc : LdDocument) (pub : KeyPair) : Except PyExc Unit :=
  match doc.signature with
  | none => .error .verificationFormatError
  | some sig =>
    if rsa_verify pub ⟨idContext, sig.creator, sig.created⟩ doc.body sig.signatureValue
    then .ok ()
    else .error .verificationError

/-- `document["k"] = v` on an LD body: replace or append. -/
def setBodyField (b : LdBody) (k v : String) : LdBody :=
  match b with
  | [] => [(k, v)]
  | (k₀, v₀) :: rest => if k₀ = k then (k, v) :: rest else (k₀, v₀) :: setBodyField rest k v

end LDSignature

/-- An environment for concrete runs: every handler succeeds, no
Identity or Post matches a URI, and LD verification succeeds. -/
def envAllOk : Env :=
  ⟨fun _ => .ok (), fun _ => false, fun _ => false, .valid⟩

/-! # Theorems -/

/-- Popping a key really removes it. -/
theorem lookupField_eraseField_self (d : Doc) (k : String) :
    lookupField (eraseField d k) k = none := by
  induction d with
  | nil => rfl
  | cons p rest ih =>
    obtain ⟨k₀, v⟩ := p
    by_cases h : k₀ = k
    · simpa [eraseField, h] using ih
    · simp [eraseField, lookupField, h, ih]

/-- C3: every declared transition of `InboxMessageStates` goes from
`received` to `processed` or `errored` — so no transition leaves
`processed` or `errored`, which are externally progressed terminal
states. -/
theorem c3_state_graph (s t : StateSym) (h : (s, t) ∈ inboxTransitions) :
    s = .received ∧ (t = .processed ∨ t = .errored) ∧
    (stateDef .processed).externallyProgressed = true ∧
    (stateDef .errored).externallyProgressed = true := by
  simp only [inboxTransitions, List.mem_cons, List.not_mem_nil, or_false,
    Prod.mk.injEq] at h
  rcases h with ⟨rfl, rfl⟩ | ⟨rfl, rfl⟩ <;> simp [stateDef]

/-- Witness for C3 at the edge `received → processed`. -/
theorem c3_state_graph_witness :
    (StateSym.received, StateSym.processed) ∈ inboxTransitions ∧
    (StateSym.received = .received ∧
      (StateSym.processed = .processed ∨ StateSym.processed = .errored) ∧
      (stateDef .processed).externallyProgressed = true ∧
      (stateDef .errored).externallyProgressed = true) :=
  ⟨by decide, c3_state_graph _ _ (by decide)⟩

set_option maxHeartbeats 2000000 in
/-- The dispatch never selects `received` as the next state: every
branch falls through to `processed`, explicitly returns `errored`, or
raises. -/
theorem dispatch_never_received (env : Env) (doc : Doc) :
    (dispatch env doc).2 ≠ .ok .received := by
  have hrun : ∀ h : Handler, (run1 env h .processed).2 ≠ .ok .received := by
    intro h
    simp only [run1]
    split <;> simp
  unfold dispatch
  intro hc
  split at hc
  · exact nomatch hc
  next mt heq =>
    by_cases h1 : mt = "follow"
    · rw [if_pos h1] at hc; exact hrun _ hc
    rw [if_neg h1] at hc
    by_cases h2 : mt = "block"
    · rw [if_pos h2] at hc; exact hrun _ hc
    rw [if_neg h2] at hc
    by_cases h3 : mt = "announce"
    · rw [if_pos h3] at hc
      repeat' split at hc
      all_goals first | exact hrun _ hc | exact nomatch hc
    rw [if_neg h3] at hc
    by_cases h4 : mt = "like"
    · rw [if_pos h4] at hc; exact hrun _ hc
    rw [if_neg h4] at hc
    by_cases h5 : mt = "create"
    · rw [if_pos h5] at hc
      repeat' split at hc
      all_goals first | exact hrun _ hc | exact nomatch hc
    rw [if_neg h5] at hc
    by_cases h6 : mt = "update"
    · rw [if_pos h6] at hc
      repeat' split at hc
      all_goals first | exact hrun _ hc | exact nomatch hc
    rw [if_neg h6] at hc
    by_cases h7 : mt = "accept"
    · rw [if_pos h7] at hc
      repeat' split at hc
      all_goals first | exact hrun _ hc | exact nomatch hc
    rw [if_neg h7] at hc
    by_cases h8 : mt = "reject"
    · rw [if_pos h8] at hc
      repeat' split at hc
      all_goals first | exact hrun _ hc | exact nomatch hc
    rw [if_neg h8] at hc
    by_cases h9 : mt = "undo"
    · rw [if_pos h9] at hc
      repeat' split at hc
      all_goals first | exact hrun _ hc | exact nomatch hc
    rw [if_neg h9] at hc
    by_cases h10 : mt = "delete"
    · rw [if_pos h10] at hc
      repeat' split at hc
      all_goals first | exact hrun _ hc | exact nomatch hc
    rw [if_neg h10] at hc
    by_cases h11 : mt = "add"
    · rw [if_pos h11] at hc; exact hrun _ hc
    rw [if_neg h11] at hc
    by_cases h12 : mt = "remove"
    · rw [if_pos h12] at hc; exact hrun _ hc
    rw [if_neg h12] at hc
    by_cases h13 : mt = "move"
    · rw [if_pos h13] at hc; exact nomatch hc
    rw [if_neg h13] at hc
    by_cases h14 : mt = "http://litepub.social/ns#emojireact"
    · rw [if_pos h14] at hc; exact nomatch hc
    rw [if_neg h14] at hc
    by_cases h15 : mt = "flag"
    · rw [if_pos h15] at hc; exact hrun _ hc
    rw [if_neg h15] at hc
    by_cases h16 : mt = "__internal__"
    · rw [if_pos h16] at hc
      repeat' split at hc
      all_goals first | exact hrun _ hc | exact nomatch hc
    rw [if_neg h16] at hc
    exact nomatch hc

/-- C8: `handle_received` is a pure decision over the payload — it
returns a next-state symbol, `processed` or `errored` (never
`received`), or raises, and never touches the stored `state` or
`state_changed_at` of the row. -/
theorem c8_pure_decision (env : Env) (inst : Instance) :
    (handle_received env inst).1.state = inst.state ∧
    (handle_received env inst).1.stateChangedAt = inst.stateChangedAt ∧
    ((∃ e, (handle_received env inst).2.2 = .error e) ∨
      (handle_received env inst).2.2 = .ok .processed ∨
      (handle_received env inst).2.2 = .ok .errored) := by
  refine ⟨?_, ?_, ?_⟩
  · simp only [handle_received]
    split <;> first | rfl | (split <;> rfl)
  · simp only [handle_received]
    split <;> first | rfl | (split <;> rfl)
  · have hnr : (handle_received env inst).2.2 ≠ .ok .received := by
      simp only [handle_received]
      split
      · simp
      · simp
      · simp
      · split
        all_goals simp_all [dispatch_never_received]
    rcases hr : (handle_received env inst).2.2 with e | st
    · exact .inl ⟨e, rfl⟩
    · rcases st with - | - | -
      · exact absurd hr hnr
      · exact .inr (.inl rfl)
      · exact .inr (.inr rfl)

/-- C9 counterexample: `create_internal` creates the internal message
but its body has no `return` statement — the caller receives `None`,
not the id of the created row (which is `0` here). -/
theorem c9_counterexample :
    (create_internal ⟨[], 0⟩ (.str "fetchpost")).1.rows =
      [(0, [("type", .str "__internal__"), ("object", .str "fetchpost")])] ∧
    (create_internal ⟨[], 0⟩ (.str "fetchpost")).2 = none ∧
    (create_internal ⟨[], 0⟩ (.str "fetchpost")).2 ≠ some 0 :=
  ⟨rfl, rfl, by simp [create_internal]⟩

/-- C9 amended: `create_internal` appends one message whose top-level
type is `"__internal__"` and whose object is the payload, but returns
`None` rather than the new message's id. -/
theorem c9_amended_create_internal (st : Store) (payload : JsonVal) :
    (create_internal st payload).2 = none ∧
    (create_internal st payload).1.rows =
      st.rows ++ [(st.nextId, [("type", .str "__internal__"), ("object", payload)])] ∧
    lookupField [("type", .str "__internal__"), ("object", payload)] "type" =
      some (.str "__internal__") ∧
    lookupField [("type", .str "__internal__"), ("object", payload)] "object" =
      some payload := by
  refine ⟨rfl, rfl, ?_, ?_⟩ <;> simp [lookupField]

/-- C7: LD signing round-trips — verification succeeds on the signed
document, and mutating any body field to anything that changes the
document makes verification fail with `VerificationError`. -/
theorem c7_ld_sign_roundtrip (body : LDSignature.LdBody) (k : LDSignature.KeyPair)
    (keyId created : String) :
    LDSignature.verify_signature
      ⟨body, some (LDSignature.create_signature body k keyId created)⟩ k = .ok () ∧
    ∀ f v, LDSignature.setBodyField body f v ≠ body →
      LDSignature.verify_signature
        ⟨LDSignature.setBodyField body f v,
          some (LDSignature.create_signature body k keyId created)⟩ k =
        .error .verificationError := by
  constructor
  · simp [LDSignature.verify_signature, LDSignature.create_signature,
      LDSignature.rsa_verify, LDSignature.rsa_sign]
  · intro f v hne
    simp only [LDSignature.verify_signature, LDSignature.create_signature,
      LDSignature.rsa_verify, LDSignature.rsa_sign]
    rw [if_neg]
    simp only [decide_eq_true_eq, LDSignature.RsaSig.mk.injEq]
    rintro ⟨-, -, h⟩
    exact hne h.symm

/-- Witness for C7: a concrete signed document verifies, and rewriting
its `actor` field breaks verification. -/
theorem c7_ld_sign_roundtrip_witness :
    LDSignature.verify_signature
      ⟨[("actor", "https://example.com/a")],
        some (LDSignature.create_signature [("actor", "https://example.com/a")]
          ⟨7⟩ "https://example.com/a#main-key" "2023-10-25T08:08:47Z")⟩ ⟨7⟩ = .ok () ∧
    LDSignature.setBodyField [("actor", "https://example.com/a")] "actor" "https://example.com/evil"
      ≠ [("actor", "https://example.com/a")] ∧
    LDSignature.verify_signature
      ⟨LDSignature.setBodyField [("actor", "https://example.com/a")] "actor" "https://example.com/evil",
        some (LDSignature.create_signature [("actor", "https://example.com/a")]
          ⟨7⟩ "https://example.com/a#main-key" "2023-10-25T08:08:47Z")⟩ ⟨7⟩ =
      .error .verificationError :=
  ⟨(c7_ld_sign_roundtrip _ _ _ _).1, by decide,
    (c7_ld_sign_roundtrip _ _ _ _).2 "actor" "https://example.com/evil" (by decide)⟩

/-- C6: `verify_ld_signature` leaves the `signature` field in place
when verification succeeds, and on a cryptographic verification failure
pops it from the document before re-raising `VerificationError`. -/
theorem c6_signature_strip (env : Env) (doc : Doc) (sv : JsonVal)
    (hsig : lookupField doc "signature" = some sv) :
    (env.ldOutcome = .valid →
      (verify_ld_signature env doc).1 = doc ∧
      lookupField (verify_ld_signature env doc).1 "signature" = some sv) ∧
    (env.ldOutcome = .cryptoError →
      verify_ld_signature env doc =
        (eraseField doc "signature", .error .verificationError) ∧
      lookupField (verify_ld_signature env doc).1 "signature" = none) := by
  constructor
  · intro hv
    have h1 : (verify_ld_signature env doc).1 = doc := by
      simp only [verify_ld_signature, hsig, hv]
      split <;> rfl
    rw [h1]
    exact ⟨rfl, hsig⟩
  · intro hv
    have h1 : verify_ld_signature env doc =
        (eraseField doc "signature", .error .verificationError) := by
      simp [verify_ld_signature, hsig, hv]
    rw [h1]
    exact ⟨rfl, lookupField_eraseField_self doc "signature"⟩

/-- Witness for C6 on a concrete signed document, under both a
successful and a cryptographically failing verification outcome. -/
theorem c6_signature_strip_witness :
    lookupField [("type", .str "Create"), ("signature", .obj [])] "signature" =
      some (.obj []) ∧
    (verify_ld_signature envAllOk
      [("type", .str "Create"), ("signature", .obj [])]).1 =
      [("type", .str "Create"), ("signature", .obj [])] ∧
    verify_ld_signature { envAllOk with ldOutcome := .cryptoError }
      [("type", .str "Create"), ("signature", .obj [])] =
      ([("type", .str "Create")], .error .verificationError) :=
  ⟨rfl,
    ((c6_signature_strip envAllOk [("type", .str "Create"), ("signature", .obj [])]
      (.obj []) (by simp [lookupField])).1 rfl).1,
    by
      have h := ((c6_signature_strip { envAllOk with ldOutcome := .cryptoError }
        [("type", .str "Create"), ("signature", .obj [])] (.obj [])
        (by simp [lookupField])).2 rfl).1
      simpa [eraseField] using h⟩

/-- C2 (code bug): a structurally malformed LD signature does make
`handle_received` return `errored` immediately with no dispatch, but on
a cryptographically invalid LD signature the `except VerificationError`
clause calls `instance.message_actor()` — calling the value of a
`@property`, which is a JSON value and never callable — so
`handle_received` raises `TypeError` instead of continuing unverified. -/
theorem c2_crypto_failure_raises :
    (handle_received { envAllOk with ldOutcome := .formatError }
      ⟨.received, 0,
        [("type", .str "Follow"), ("actor", .str "https://example.com/a"),
          ("signature", .obj [("creator", .str "https://example.com/a#main-key"),
            ("created", .str "2023-01-01T00:00:00Z")])]⟩).2 =
      ([], .ok .errored) ∧
    (handle_received { envAllOk with ldOutcome := .cryptoError }
      ⟨.received, 0,
        [("type", .str "Follow"), ("actor", .str "https://example.com/a"),
          ("signature", .obj [("creator", .str "https://example.com/a#main-key"),
            ("created", .str "2023-01-01T00:00:00Z"),
            ("signatureValue", .str "bm90IGEgdmFsaWQgc2lnbmF0dXJl"),
            ("type", .str "RsaSignature2017")])]⟩).2 =
      ([], .error .typeError) :=
  ⟨rfl, rfl⟩

/-- C4: around the dispatch, `handle_received` converts exactly the
federation-error family and JSON-LD faults to `errored`; every other
exception raised inside the dispatch propagates unchanged, with the row
untouched. -/
theorem c4_exception_policy (env : Env) (inst : Instance) (e : PyExc)
    (hsig : lookupField inst.message "signature" = none)
    (hd : (dispatch env inst.message).2 = .error e) :
    (handle_received env inst).2.2 =
      (if e = .activityPubError ∨ e = .jsonLdError then .ok .errored
        else .error e) ∧
    (handle_received env inst).1 = inst ∧
    (handle_received env inst).2.1 = (dispatch env inst.message).1 := by
  have hpre : verify_ld_signature env inst.message = (inst.message, .ok ()) := by
    simp [verify_ld_signature, hsig]
  refine ⟨?_, ?_, ?_⟩ <;>
    (simp only [handle_received, hpre]
     cases e <;> simp_all)

/-- Witness for C4: a `follow` whose handler raises an
`ActivityPubError` → `errored`; the same message whose handler raises a
`KeyError` → the `KeyError` propagates. -/
theorem c4_exception_policy_witness :
    lookupField [("type", .str "Follow")] "signature" = none ∧
    (dispatch
      { envAllOk with handlerResult := fun _ => .error .activityPubError }
      [("type", .str "Follow")]).2 = .error .activityPubError ∧
    (handle_received
      { envAllOk with handlerResult := fun _ => .error .activityPubError }
      ⟨.received, 0, [("type", .str "Follow")]⟩).2.2 = .ok .errored ∧
    (handle_received
      { envAllOk with handlerResult := fun _ => .error .keyError }
      ⟨.received, 0, [("type", .str "Follow")]⟩).2.2 = .error .keyError := by
  refine ⟨rfl, rfl, ?_, ?_⟩
  · have h := (c4_exception_policy
      { envAllOk with handlerResult := fun _ => .error .activityPubError }
      ⟨.received, 0, [("type", .str "Follow")]⟩ .activityPubError rfl rfl).1
    simpa using h
  · have h := (c4_exception_policy
      { envAllOk with handlerResult := fun _ => .error .keyError }
      ⟨.received, 0, [("type", .str "Follow")]⟩ .keyError rfl rfl).1
    simpa using h

/-- C5: a `delete` whose object is a plain string URI is looked up as an
Identity first (invoking the Identity delete handler if one exists),
else as a Post (invoking the Post delete handler if one exists), and
otherwise no handler runs; in each case the outcome is `processed`. -/
theorem c5_delete_string_uri (env : Env) (inst : Instance) (u : String)
    (hsig : lookupField inst.message "signature" = none)
    (hmt : message_type inst.message = .ok "delete")
    (hobj : lookupField inst.message "object" = some (.str u))
    (hid : env.handlerResult .identityDelete = .ok ())
    (hpost : env.handlerResult .postDelete = .ok ()) :
    handle_received env inst =
      (inst,
        (if env.identityExists (.str u) then [.identityDelete]
          else if env.postExists (.str u) then [.postDelete]
          else [],
          .ok .processed)) := by
  have hpre : verify_ld_signature env inst.message = (inst.message, .ok ()) := by
    simp [verify_ld_signature, hsig]
  have hd : dispatch env inst.message =
      (if env.identityExists (.str u) then [Handler.identityDelete]
        else if env.postExists (.str u) then [Handler.postDelete]
        else [],
        .ok .processed) := by
    simp only [dispatch, hmt, hobj]
    by_cases h1 : env.identityExists (.str u) <;>
      by_cases h2 : env.postExists (.str u) <;>
        simp [h1, h2, run1, hid, hpost]
  simp only [handle_received, hpre, hd]

/-- Witness for C5: `{"type": "Delete", "object": "https://x/1"}` with
no matching Identity or Post yields `processed` with zero handler
invocations. -/
theorem c5_delete_string_uri_witness :
    lookupField [("type", .str "Delete"), ("object", .str "https://x/1")] "signature" = none ∧
    message_type [("type", .str "Delete"), ("object", .str "https://x/1")] = .ok "delete" ∧
    handle_received envAllOk
      ⟨.received, 0, [("type", .str "Delete"), ("object", .str "https://x/1")]⟩ =
      (⟨.received, 0, [("type", .str "Delete"), ("object", .str "https://x/1")]⟩,
        ([], .ok .processed)) := by
  refine ⟨rfl, rfl, ?_⟩
  have h := c5_delete_string_uri envAllOk
    ⟨.received, 0, [("type", .str "Delete"), ("object", .str "https://x/1")]⟩
    "https://x/1" rfl rfl rfl rfl rfl
  simpa [envAllOk] using h

/-- C10 counterexample: a payload with no top-level `type` key but a
structurally malformed signature block is classified by the signature
pre-pass, so `handle_received` returns `errored` rather than raising. -/
theorem c10_counterexample :
    lookupField
      [("signature", .obj [("creator", .str "https://example.com/a#main-key"),
        ("created", .str "2023-01-01T00:00:00Z")])] "type" = none ∧
    (handle_received { envAllOk with ldOutcome := .formatError }
      ⟨.received, 0,
        [("signature", .obj [("creator", .str "https://example.com/a#main-key"),
          ("created", .str "2023-01-01T00:00:00Z")])]⟩).2 =
      ([], .ok .errored) :=
  ⟨rfl, rfl⟩

/-- C10 amended: for every message that does not carry a signature
block failing the pre-pass (no signature at all, or one that verifies),
a payload lacking a top-level `type` key makes `handle_received` raise
`KeyError`, and a non-string `type` value makes it raise
`AttributeError`; the message is left to be retried rather than
classified `processed`/`errored`. -/
theorem c10_amended_missing_type (env : Env) (inst : Instance)
    (hpre : lookupField inst.message "signature" = none ∨ env.ldOutcome = .valid) :
    (lookupField inst.message "type" = none →
      (handle_received env inst).2.2 = .error .keyError) ∧
    (∀ v, lookupField inst.message "type" = some v → (∀ s, v ≠ .str s) →
      (handle_received env inst).2.2 = .error .attributeError) := by
  constructor
  · intro htype
    rcases hs : lookupField inst.message "signature" with - | sv
    · simp [handle_received, verify_ld_signature, hs, dispatch, message_type, htype]
    · rcases hpre with hnone | hvalid
      · rw [hs] at hnone; cases hnone
      · simp [handle_received, verify_ld_signature, hs, hvalid, htype]
  · intro v htype hnstr
    have hmt : message_type inst.message = .error .attributeError := by
      rcases v with s | n | b | - | l | o
      · exact absurd rfl (hnstr s)
      all_goals simp [message_type, htype]
    rcases hs : lookupField inst.message "signature" with - | sv
    · simp [handle_received, verify_ld_signature, hs, dispatch, hmt]
    · rcases hpre with hnone | hvalid
      · rw [hs] at hnone; cases hnone
      · simp [handle_received, verify_ld_signature, hs, hvalid, htype, dispatch, hmt]

/-- Witness for C10 (amended): a signatureless payload with no `type`
key raises `KeyError`; one whose `type` is a number raises
`AttributeError`. -/
theorem c10_amended_missing_type_witness :
    lookupField [("actor", .str "https://example.com/a")] "signature" = none ∧
    (handle_received envAllOk
      ⟨.received, 0, [("actor", .str "https://example.com/a")]⟩).2.2 =
      .error .keyError ∧
    (handle_received envAllOk
      ⟨.received, 0, [("type", .num 5)]⟩).2.2 = .error .attributeError := by
  refine ⟨rfl, ?_, ?_⟩
  · exact (c10_amended_missing_type envAllOk
      ⟨.received, 0, [("actor", .str "https://example.com/a")]⟩ (.inl rfl)).1 rfl
  · exact (c10_amended_missing_type envAllOk
      ⟨.received, 0, [("type", .num 5)]⟩ (.inl rfl)).2 (.num 5) rfl
      (fun s h => by cases h)

/-- C1 counterexample: `{"type": "Create", "object": {"type": "Widget"}}`
is not a dispatch-table combination, yet `handle_received` returns
`processed` (invoking no handler), not `errored`. -/
theorem c1_counterexample :
    message_type [("type", .str "Create"), ("object", .obj [("type", .str "Widget")])] =
      .ok "create" ∧
    "widget" ∉ postTypeNames ∧
    (handle_received envAllOk
      ⟨.received, 0,
        [("type", .str "Create"), ("object", .obj [("type", .str "Widget")])]⟩).2 =
      ([], .ok .processed) :=
  ⟨rfl, by decide, rfl⟩

/-- C1 amended: every type/object-type combination outside the dispatch
table yields `errored` with no handler invoked, except that a `create`
or `update` whose object type is unrecognized — or absent, the object
being a non-mapping — silently falls through to `processed`, also with
no handler invoked. -/
theorem c1_amended_dispatch_misses (env : Env) (inst : Instance) (t : String)
    (hsig : lookupField inst.message "signature" = none)
    (hmt : message_type inst.message = .ok t) :
    (t ∉ ["follow", "block", "announce", "like", "create", "update", "accept",
        "reject", "undo", "delete", "add", "remove", "move",
        "http://litepub.social/ns#emojireact", "flag", "__internal__"] →
      handle_received env inst = (inst, ([], .ok .errored))) ∧
    (∀ u, message_object_type inst.message = .ok (some u) →
      (((t = "accept" ∨ t = "reject") → u ≠ "follow" →
        handle_received env inst = (inst, ([], .ok .errored))) ∧
      (t = "undo" →
        u ∉ ["follow", "block", "like", "announce",
          "http://litepub.social/ns#emojireact"] →
        handle_received env inst = (inst, ([], .ok .errored))) ∧
      (t = "delete" → u ∉ ["tombstone", "note"] →
        handle_received env inst = (inst, ([], .ok .errored))) ∧
      (t = "__internal__" →
        u ∉ ["fetchpost", "cleartimeline", "addfollow", "syncpins"] →
        handle_received env inst = (inst, ([], .ok .errored))) ∧
      (t = "create" → u ∉ "note" :: "question" :: postTypeNames →
        handle_received env inst = (inst, ([], .ok .processed))) ∧
      (t = "update" →
        u ∉ "note" :: "person" :: "service" :: "group" :: "organization" ::
          "application" :: "question" :: postTypeNames →
        handle_received env inst = (inst, ([], .ok .processed))))) ∧
    (message_object_type inst.message = .ok none →
      ((t = "undo" ∨ t = "__internal__") →
        handle_received env inst = (inst, ([], .ok .errored))) ∧
      ((t = "create" ∨ t = "update") →
        handle_received env inst = (inst, ([], .ok .processed)))) := by
  have hpre : verify_ld_signature env inst.message = (inst.message, .ok ()) := by
    simp [verify_ld_signature, hsig]
  have hwrap : ∀ tr st, dispatch env inst.message = (tr, .ok st) →
      handle_received env inst = (inst, (tr, .ok st)) := by
    intro tr st hd
    simp [handle_received, hpre, hd]
  refine ⟨?_, ?_, ?_⟩
  · intro h
    simp only [List.mem_cons, List.not_mem_nil, or_false, not_or] at h
    obtain ⟨h1, h2, h3, h4, h5, h6, h7, h8, h9, h10, h11, h12, h13, h14, h15, h16⟩ := h
    apply hwrap
    simp only [dispatch, hmt]
    simp [h1, h2, h3, h4, h5, h6, h7, h8, h9, h10, h11, h12, h13, h14, h15, h16]
  · intro u hmot
    refine ⟨?_, ?_, ?_, ?_, ?_, ?_⟩
    · rintro (rfl | rfl) hu <;>
        (apply hwrap; simp only [dispatch, hmt]; simp [hmot, hu])
    · rintro rfl hu
      simp only [List.mem_cons, List.not_mem_nil, or_false, not_or] at hu
      obtain ⟨hu1, hu2, hu3, hu4, hu5⟩ := hu
      apply hwrap
      simp only [dispatch, hmt]
      simp [hmot, hu1, hu2, hu3, hu4, hu5]
    · rintro rfl hu
      simp only [List.mem_cons, List.not_mem_nil, or_false, not_or] at hu
      obtain ⟨hu1, hu2⟩ := hu
      rcases ho : lookupField inst.message "object" with - | v
      · simp [message_object_type, ho] at hmot
      rcases v with s | n | b | - | l | o
      · simp [message_object_type, ho] at hmot
      · simp [message_object_type, ho] at hmot
      · simp [message_object_type, ho] at hmot
      · simp [message_object_type, ho] at hmot
      · simp [message_object_type, ho] at hmot
      apply hwrap
      simp only [dispatch, hmt]
      simp [ho, hmot, hu1, hu2]
    · rintro rfl hu
      simp only [List.mem_cons, List.not_mem_nil, or_false, not_or] at hu
      obtain ⟨hu1, hu2, hu3, hu4⟩ := hu
      apply hwrap
      simp only [dispatch, hmt]
      simp [hmot, hu1, hu2, hu3, hu4]
    · rintro rfl hu
      simp only [List.mem_cons, not_or] at hu
      obtain ⟨hu1, hu2, hu3⟩ := hu
      apply hwrap
      simp only [dispatch, hmt]
      simp [hmot, hu1, hu2, hu3]
    · rintro rfl hu
      simp only [List.mem_cons, not_or] at hu
      obtain ⟨hu1, hu2, hu3, hu4, hu5, hu6, hu7, hu8⟩ := hu
      apply hwrap
      simp only [dispatch, hmt]
      simp [hmot, hu1, hu2, hu3, hu4, hu5, hu6, hu7, hu8]
  · intro hmot
    constructor
    · rintro (rfl | rfl) <;>
        (apply hwrap; simp only [dispatch, hmt]; simp [hmot])
    · rintro (rfl | rfl) <;>
        (apply hwrap; simp only [dispatch, hmt]; simp [hmot])

/-- Witness for C1 (amended): an unrecognized top-level type is
`errored`; an `accept` of an unknown object type is `errored`; a
`create` of an unknown object type is `processed`; none invoke a
handler. -/
theorem c1_amended_dispatch_misses_witness :
    message_type [("type", .str "View"), ("object", .obj [("type", .str "Widget")])] =
      .ok "view" ∧
    handle_received envAllOk
      ⟨.received, 0, [("type", .str "View"), ("object", .obj [("type", .str "Widget")])]⟩ =
      (⟨.received, 0, [("type", .str "View"), ("object", .obj [("type", .str "Widget")])]⟩,
        ([], .ok .errored)) ∧
    handle_received envAllOk
      ⟨.received, 0, [("type", .str "Accept"), ("object", .obj [("type", .str "Widget")])]⟩ =
      (⟨.received, 0, [("type", .str "Accept"), ("object", .obj [("type", .str "Widget")])]⟩,
        ([], .ok .errored)) ∧
    handle_received envAllOk
      ⟨.received, 0, [("type", .str "Create"), ("object", .obj [("type", .str "Widget")])]⟩ =
      (⟨.received, 0, [("type", .str "Create"), ("object", .obj [("type", .str "Widget")])]⟩,
        ([], .ok .processed)) ∧
    handle_received envAllOk
      ⟨.received, 0, [("type", .str "Undo"), ("object", .str "https://x/1")]⟩ =
      (⟨.received, 0, [("type", .str "Undo"), ("object", .str "https://x/1")]⟩,
        ([], .ok .errored)) ∧
    handle_received envAllOk
      ⟨.received, 0, [("type", .str "Create"), ("object", .str "https://x/1")]⟩ =
      (⟨.received, 0, [("type", .str "Create"), ("object", .str "https://x/1")]⟩,
        ([], .ok .processed)) := by
  refine ⟨rfl, ?_, ?_, ?_, ?_, ?_⟩
  · exact (c1_amended_dispatch_misses envAllOk
      ⟨.received, 0, [("type", .str "View"), ("object", .obj [("type", .str "Widget")])]⟩
      "view" rfl rfl).1 (by decide)
  · exact (((c1_amended_dispatch_misses envAllOk
      ⟨.received, 0, [("type", .str "Accept"), ("object", .obj [("type", .str "Widget")])]⟩
      "accept" rfl rfl).2.1 "widget" rfl).1) (.inl rfl) (by decide)
  · exact (((c1_amended_dispatch_misses envAllOk
      ⟨.received, 0, [("type", .str "Create"), ("object", .obj [("type", .str "Widget")])]⟩
      "create" rfl rfl).2.1 "widget" rfl).2.2.2.2.1) rfl (by decide)
  · exact ((c1_amended_dispatch_misses envAllOk
      ⟨.received, 0, [("type", .str "Undo"), ("object", .str "https://x/1")]⟩
      "undo" rfl rfl).2.2 rfl).1 (.inl rfl)
  · exact ((c1_amended_dispatch_misses envAllOk
      ⟨.received, 0, [("type", .str "Create"), ("object", .str "https://x/1")]⟩
      "create" rfl rfl).2.2 rfl).2 (.inl rfl)

end Takahe
